import Mathlib

/-!
Verification of the preference-persistence and scroll-spy subsystem of the
personal-website repository (Vue 3 single-page portfolio).

Shallow embedding conventions:
- `localStorage` is an association list from string keys to string values;
  `getItem` / `setItem` mirror the Web Storage API as the code uses it.
- The DOM is a partial map from element ids to their geometry
  (absolute top offset `rect.top + window.scrollY`, and `offsetHeight`),
  since that is all the navigation code reads.
- Component reactive refs become fields of explicit state structures; each
  lifecycle hook or event handler becomes a function from state to state.
- A browser API that can throw (storage quota, missing IntersectionObserver
  constructor) is modelled by a flag selecting the throwing behaviour; an
  escaped exception is the `Option String` component of the result
  (`some msg` = the exception propagated out of the function, `none` = normal
  return). Scroll positions and geometry are integers.
-/

/-- The persistent key-value store backing `localStorage`. -/
abbrev Storage := List (String × String)

/-- `localStorage.getItem`: first binding of the key, `none` when absent. -/
def getItem : Storage → String → Option String
  | [], _ => none
  | (k2, v2) :: rest, k => if k2 = k then some v2 else getItem rest k

/-- `localStorage.setItem`: overwrite the first binding of the key, or append. -/
def setItem : Storage → String → String → Storage
  | [], k, v => [(k, v)]
  | (k2, v2) :: rest, k, v =>
    if k2 = k then (k, v) :: rest else (k2, v2) :: setItem rest k v

theorem getItem_setItem (s : Storage) (k v : String) :
    getItem (setItem s k v) k = some v := by
  induction s with
  | nil => simp [setItem, getItem]
  | cons p rest ih =>
    by_cases h : p.1 = k
    · simp [setItem, getItem, h]
    · simp [setItem, getItem, h, ih]

theorem setItem_idem (s : Storage) (k v : String) :
    setItem (setItem s k v) k v = setItem s k v := by
  induction s with
  | nil => simp [setItem]
  | cons p rest ih =>
    by_cases h : p.1 = k
    · simp [setItem, h]
    · simp [setItem, h, ih]

/-- Geometry of a section element, as the navigation code reads it:
`top` is `getBoundingClientRect().top + window.scrollY` and
`height` is `offsetHeight`. -/
structure SectionGeom where
  top : Int
  height : Int
deriving DecidableEq

/-- The document, as a partial map from element id to geometry. -/
abbrev Dom := List (String × SectionGeom)

/-- `document.getElementById`: `none` models a missing element. -/
def getElementById (dom : Dom) (id : String) : Option SectionGeom :=
  (dom.find? (fun p => p.1 = id)).map Prod.snd

/-- The statically defined section id sequence of SimpleNavigation.vue. -/
def navSections : List String := ["hero", "about", "projects", "contact"]

/-- The scanning loop of `updateActiveSection` (SimpleNavigation.vue:45-56):
walk the sections in document order, skip missing elements (`continue`),
and on the first section whose interval [top, top + offsetHeight) contains
the probe point, return it (`break`); otherwise keep the current active id. -/
def updateActiveLoop (dom : Dom) (p : Int) (active : String) : List String → String
  | [] => active
  | id :: rest =>
    match getElementById dom id with
    | none => updateActiveLoop dom p active rest
    | some el =>
      if el.top ≤ p ∧ p < el.top + el.height then id
      else updateActiveLoop dom p active rest

/-- `updateActiveSection` (SimpleNavigation.vue:42-57): the probe point is
`window.scrollY + 100`; `activeSection` is left unchanged when no present
section contains the probe point. -/
def updateActiveSection (dom : Dom) (sections : List String)
    (scrollY : Int) (active : String) : String :=
  updateActiveLoop dom (scrollY + 100) active sections

/-- Whether a section id is present in the document and its interval
[top, top + height) contains the point `p` (the loop guard of
`updateActiveSection`). -/
def sectionContains (dom : Dom) (p : Int) (id : String) : Bool :=
  match getElementById dom id with
  | none => false
  | some el => decide (el.top ≤ p ∧ p < el.top + el.height)

/-- Modelled from the spec (section 4.2 transition rule, quoted by claim C1),
NOT from the source, for comparison against `updateActiveSection`: the active
section is the LAST section in document order whose effective top
(top offset minus the fixed navigation-bar height 80) is ≤ the scroll
position plus the fixed look-ahead offset (100 in the source); the state
holds when no section qualifies. -/
def specActiveSection (dom : Dom) (sections : List String)
    (scrollY : Int) (active : String) : String :=
  let qualifies := fun id =>
    match getElementById dom id with
    | none => false
    | some el => decide (el.top - 80 ≤ scrollY + 100)
  match (sections.filter qualifies).getLast? with
  | none => active
  | some id => id

/-- Observable state of the navigation component for scroll commands:
the current `activeSection` ref and the list of scroll targets issued
through `window.scrollTo`. -/
structure ScrollState where
  activeSection : String
  scrollCmds : List Int
deriving DecidableEq

/-- `scrollToSection` (SimpleNavigation.vue:24-39): missing element returns
early; otherwise the target is `max 0 (top - navHeight)` with navHeight 80,
a smooth scroll command is issued, and `activeSection` is set. -/
def scrollToSection (dom : Dom) (st : ScrollState) (id : String) : ScrollState :=
  match getElementById dom id with
  | none => st
  | some el =>
    let targetPosition := max 0 (el.top - 80)
    { activeSection := id, scrollCmds := st.scrollCmds ++ [targetPosition] }

theorem updateActiveLoop_eq_find (dom : Dom) (p : Int) (a : String)
    (secs : List String) :
    updateActiveLoop dom p a secs =
      ((secs.find? fun id => sectionContains dom p id).getD a) := by
  induction secs with
  | nil => rfl
  | cons id rest ih =>
    show (match getElementById dom id with
      | none => updateActiveLoop dom p a rest
      | some el =>
        if el.top ≤ p ∧ p < el.top + el.height then id
        else updateActiveLoop dom p a rest) = _
    cases h : getElementById dom id with
    | none => simp [List.find?, sectionContains, h, ih]
    | some el =>
      by_cases hc : el.top ≤ p ∧ p < el.top + el.height
      · simp [List.find?, sectionContains, h, hc]
      · simp [List.find?, sectionContains, h, hc, ih]

/-- Concrete document used for the scroll-spy claims: three contiguous
sections at top offsets 0, 1000, 2000, each 1000 tall. -/
def dom3 : Dom :=
  [("hero", ⟨0, 1000⟩), ("about", ⟨1000, 1000⟩), ("projects", ⟨2000, 1000⟩)]

/-- The section order matching `dom3`. -/
def secs3 : List String := ["hero", "about", "projects"]

/-- C1 (counterexample): at scroll position 850 over three contiguous
sections at tops 0, 1000, 2000 the code keeps the FIRST section active
(the probe point 950 lies in [0, 1000)), while the rule stated by the
claim (last section with top - 80 ≤ scroll + look-ahead) selects the
second section (920 ≤ 950). The two rules therefore disagree. -/
theorem scrollSpy_rule_counterexample :
    updateActiveSection dom3 secs3 850 "hero" = "hero" ∧
    specActiveSection dom3 secs3 850 "hero" = "about" ∧
    ("hero" : String) ≠ "about" := by
  refine ⟨rfl, rfl, by decide⟩

/-- C1 (amended): `updateActiveSection` sets the active section to the FIRST
section in document order whose interval [top, top + offsetHeight) contains
`scrollY + 100` (the navigation-bar height is not used here), and leaves the
active section unchanged when no present section contains that point; with
three contiguous sections at tops 0, 1000, 2000 (height 1000 each) and
scroll position 950, the active section is the second section. -/
theorem scrollSpy_first_containing_section :
    (∀ (dom : Dom) (secs : List String) (y : Int) (a : String),
      updateActiveSection dom secs y a =
        ((secs.find? fun id => sectionContains dom (y + 100) id).getD a)) ∧
    updateActiveSection dom3 secs3 950 "hero" = "about" := by
  exact ⟨fun dom secs y a => updateActiveLoop_eq_find dom (y + 100) a secs, rfl⟩

/-- C7: a section id whose element is absent from the document leaves
`scrollToSection` a total no-op (no scroll command issued, `activeSection`
unchanged, and being a total function it cannot throw), and
`updateActiveSection` skips the missing section while scanning. -/
theorem missing_section_noop (dom : Dom) (st : ScrollState) (id : String)
    (h : getElementById dom id = none) :
    scrollToSection dom st id = st ∧
    (∀ (secs : List String) (y : Int) (a : String),
      updateActiveSection dom (id :: secs) y a = updateActiveSection dom secs y a) := by
  constructor
  · simp [scrollToSection, h]
  · intro secs y a
    simp [updateActiveSection, updateActiveLoop, h]

/-- C7 witness: the empty document at id "nonexistent". -/
theorem missing_section_noop_witness :
    scrollToSection [] ⟨"hero", []⟩ "nonexistent" = ⟨"hero", []⟩ ∧
    (∀ (secs : List String) (y : Int) (a : String),
      updateActiveSection [] ("nonexistent" :: secs) y a =
        updateActiveSection [] secs y a) :=
  missing_section_noop [] ⟨"hero", []⟩ "nonexistent" rfl

/-- Reactive + DOM state around the theme preference: the `currentTheme` ref,
the `data-theme` attribute on `document.documentElement` (`none` = attribute
never set), and the backing `localStorage`. -/
structure ThemeState where
  currentTheme : String
  dataTheme : Option String
  storage : Storage
deriving DecidableEq

/-- The theme initialization of `onMounted` (SimpleNavigation.vue:63-67 and
NavBar.vue): `localStorage.getItem('theme') || 'light'` — the JS `||` treats
both `null` and the empty string as absent — then the ref and the
`data-theme` attribute are set to the saved value, with no validation and no
write-back to storage. -/
def loadTheme (st : ThemeState) : ThemeState :=
  let savedTheme :=
    match getItem st.storage "theme" with
    | none => "light"
    | some s => if s = "" then "light" else s
  { st with currentTheme := savedTheme, dataTheme := some savedTheme }

/-- `toggleTheme` (SimpleNavigation.vue:9-13): flip the ref, set the
attribute, write storage. -/
def toggleTheme (st : ThemeState) : ThemeState :=
  let next := if st.currentTheme = "light" then "dark" else "light"
  { currentTheme := next, dataTheme := some next,
    storage := setItem st.storage "theme" next }

/-- `applyTheme` (NavBar.vue:7-10): set the attribute and write storage
(the caller updates the ref). -/
def applyTheme (st : ThemeState) (theme : String) : ThemeState :=
  { st with dataTheme := some theme, storage := setItem st.storage "theme" theme }

/-- The cyclic `toggleTheme` of NavBar.vue:12-17 over
`themes = ['light', 'dark']`: `themes.indexOf(currentTheme)` is -1 when the
current value is neither option, `(index + 1) % themes.length` selects the
next option, the ref is updated and `applyTheme` is called. -/
def navToggleTheme (st : ThemeState) : ThemeState :=
  let index : Int :=
    if st.currentTheme = "light" then 0
    else if st.currentTheme = "dark" then 1 else -1
  let nextIndex := (index + 1) % 2
  let next := if nextIndex = 1 then "dark" else "light"
  applyTheme { st with currentTheme := next } next

/-- The `setPreference('theme', v)` path of the claims: the caller updates
the ref and then `applyTheme` writes the attribute and storage
(NavBar.vue:12-17 inlined at a given value). -/
def setThemePreference (st : ThemeState) (v : String) : ThemeState :=
  applyTheme { st with currentTheme := v } v

/-- Reactive state around the snow-animation preference: the `showSnow` ref
and the backing `localStorage`. -/
structure SnowState where
  showSnow : Bool
  storage : Storage
deriving DecidableEq

/-- The parse in `onMounted` (App.vue:190): `saved ? saved === 'true' : true`
— `null` and the empty string are falsy and give the default true; any other
string compares exactly against "true". -/
def parseShowSnow : Option String → Bool
  | none => true
  | some s => if s = "" then true else s == "true"

/-- `applyShowSnow` (App.vue:139-141): `localStorage.setItem('showSnow',
value.toString())`. -/
def applyShowSnow (t : SnowState) (v : Bool) : SnowState :=
  { t with storage := setItem t.storage "showSnow" (toString v) }

/-- The snow-preference load of `onMounted` (App.vue:187-191): parse the
stored value into the ref, then write it back through `applyShowSnow`. -/
def loadSnow (t : SnowState) : SnowState :=
  let v := parseShowSnow (getItem t.storage "showSnow")
  applyShowSnow { t with showSnow := v } v

/-- `toggleSnow` (App.vue:134-137): flip the ref, then `applyShowSnow`. -/
def toggleSnow (t : SnowState) : SnowState :=
  let v := !t.showSnow
  applyShowSnow { t with showSnow := v } v

/-- The `setPreference('animation', v)` path of the claims: update the ref,
then `applyShowSnow` (App.vue:134-141 inlined at a given value). -/
def setSnowPreference (t : SnowState) (v : Bool) : SnowState :=
  applyShowSnow { t with showSnow := v } v

/-- The theme mutations reachable in the source: the mount-time load, the
SimpleNavigation toggle, and the NavBar cyclic toggle. -/
inductive ThemeOp
  | load
  | toggle
  | navToggle
deriving DecidableEq

def applyThemeOp (st : ThemeState) : ThemeOp → ThemeState
  | .load => loadTheme st
  | .toggle => toggleTheme st
  | .navToggle => navToggleTheme st

def runThemeOps (st : ThemeState) (ops : List ThemeOp) : ThemeState :=
  ops.foldl applyThemeOp st

/-- The snow mutations reachable in the source. -/
inductive SnowOp
  | load
  | toggle
deriving DecidableEq

def applySnowOp (t : SnowState) : SnowOp → SnowState
  | .load => loadSnow t
  | .toggle => toggleSnow t

def runSnowOps (t : SnowState) (ops : List SnowOp) : SnowState :=
  ops.foldl applySnowOp t

/-- The full theme invariant: the in-memory value is one of the enumerated
options, and the attribute and storage agree with it. -/
def ThemeStrongInv (st : ThemeState) : Prop :=
  (st.currentTheme = "light" ∨ st.currentTheme = "dark") ∧
  st.dataTheme = some st.currentTheme ∧
  getItem st.storage "theme" = some st.currentTheme

/-- The snow invariant: storage agrees with the in-memory boolean. -/
def SnowSync (t : SnowState) : Prop :=
  getItem t.storage "showSnow" = some (toString t.showSnow)

theorem toggleTheme_strongInv (st : ThemeState) : ThemeStrongInv (toggleTheme st) := by
  by_cases h : st.currentTheme = "light" <;>
    simp [ThemeStrongInv, toggleTheme, h, getItem_setItem]

theorem navToggleTheme_strongInv (st : ThemeState) :
    ThemeStrongInv (navToggleTheme st) := by
  unfold navToggleTheme applyTheme
  by_cases h1 : st.currentTheme = "light" <;> by_cases h2 : st.currentTheme = "dark" <;>
    simp [ThemeStrongInv, h1, h2, getItem_setItem]

theorem loadTheme_strongInv (st : ThemeState)
    (h : getItem st.storage "theme" = some "light" ∨
         getItem st.storage "theme" = some "dark") :
    ThemeStrongInv (loadTheme st) := by
  rcases h with h | h <;> simp [ThemeStrongInv, loadTheme, h]

theorem applyThemeOp_strongInv (st : ThemeState) (op : ThemeOp)
    (h : getItem st.storage "theme" = some "light" ∨
         getItem st.storage "theme" = some "dark") :
    ThemeStrongInv (applyThemeOp st op) := by
  cases op with
  | load => exact loadTheme_strongInv st h
  | toggle => exact toggleTheme_strongInv st
  | navToggle => exact navToggleTheme_strongInv st

theorem strongInv_storage (st : ThemeState) (h : ThemeStrongInv st) :
    getItem st.storage "theme" = some "light" ∨
    getItem st.storage "theme" = some "dark" := by
  rcases h with ⟨henum, _, hst⟩
  rcases henum with h1 | h1
  · exact Or.inl (h1 ▸ hst)
  · exact Or.inr (h1 ▸ hst)

theorem runThemeOps_strongInv (ops : List ThemeOp) (st : ThemeState)
    (h : ThemeStrongInv st) : ThemeStrongInv (runThemeOps st ops) := by
  induction ops generalizing st with
  | nil => exact h
  | cons op rest ih =>
    exact ih (applyThemeOp st op) (applyThemeOp_strongInv st op (strongInv_storage st h))

theorem applySnowOp_sync (t : SnowState) (op : SnowOp) :
    SnowSync (applySnowOp t op) := by
  cases op with
  | load => simp [SnowSync, applySnowOp, loadSnow, applyShowSnow, getItem_setItem]
  | toggle => simp [SnowSync, applySnowOp, toggleSnow, applyShowSnow, getItem_setItem]

theorem runSnowOps_sync (ops : List SnowOp) (t : SnowState)
    (h : SnowSync t) : SnowSync (runSnowOps t ops) := by
  induction ops generalizing t with
  | nil => exact h
  | cons op rest ih => exact ih (applySnowOp t op) (applySnowOp_sync t op)

/-- C2 (counterexample): the load path validates nothing — with the string
"banana" previously stored under the theme key, the in-memory theme after
the initial load is "banana", which is neither of the enumerated options,
and it is also propagated to the document-root attribute. -/
theorem theme_load_unvalidated_counterexample :
    (loadTheme ⟨"light", none, [("theme", "banana")]⟩).currentTheme = "banana" ∧
    (loadTheme ⟨"light", none, [("theme", "banana")]⟩).dataTheme = some "banana" ∧
    ¬(("banana" : String) = "light" ∨ ("banana" : String) = "dark") := by
  refine ⟨rfl, rfl, by decide⟩

/-- C2 (amended): restricted to storages whose theme key holds one of the
enumerated options — the load performs no validation, so an arbitrary stored
string propagates unvalidated into memory and the attribute — every state
reached by a nonempty sequence of loads and toggles satisfies the full
invariant: the in-memory theme is "light" or "dark" and the storage value
and document-root attribute both agree with it; the in-memory animation
value is a boolean by type, and after every animation load or toggle the
stored text agrees with it (the load writes the parsed value back). -/
theorem preference_invariants_amended (s0 : ThemeState) (t0 : SnowState)
    (thOps : List ThemeOp) (snOps : List SnowOp)
    (hgood : getItem s0.storage "theme" = some "light" ∨
             getItem s0.storage "theme" = some "dark")
    (hth : thOps ≠ []) (hsn : snOps ≠ []) :
    ThemeStrongInv (runThemeOps s0 thOps) ∧ SnowSync (runSnowOps t0 snOps) := by
  constructor
  · cases thOps with
    | nil => exact absurd rfl hth
    | cons op rest =>
      exact runThemeOps_strongInv rest (applyThemeOp s0 op)
        (applyThemeOp_strongInv s0 op hgood)
  · cases snOps with
    | nil => exact absurd rfl hsn
    | cons op rest =>
      exact runSnowOps_sync rest (applySnowOp t0 op) (applySnowOp_sync t0 op)

/-- C2 witness: a storage holding "light", one toggle on each preference. -/
theorem preference_invariants_amended_witness :
    ThemeStrongInv (runThemeOps ⟨"light", none, [("theme", "light")]⟩ [ThemeOp.toggle]) ∧
    SnowSync (runSnowOps ⟨true, []⟩ [SnowOp.toggle]) :=
  preference_invariants_amended ⟨"light", none, [("theme", "light")]⟩ ⟨true, []⟩
    [ThemeOp.toggle] [SnowOp.toggle] (Or.inl rfl) (by decide) (by decide)

/-- C8: with no stored value under the respective keys, the loads yield the
hard-coded defaults and apply them — theme "light" in the ref and on the
document-root attribute, animation `true` in the ref and written back to
storage as "true". -/
theorem load_defaults (st : ThemeState) (t : SnowState)
    (hth : getItem st.storage "theme" = none)
    (hsn : getItem t.storage "showSnow" = none) :
    (loadTheme st).currentTheme = "light" ∧
    (loadTheme st).dataTheme = some "light" ∧
    (loadSnow t).showSnow = true ∧
    getItem (loadSnow t).storage "showSnow" = some "true" := by
  refine ⟨?_, ?_, ?_, ?_⟩
  · simp [loadTheme, hth]
  · simp [loadTheme, hth]
  · simp [loadSnow, applyShowSnow, parseShowSnow, hsn]
  · simp only [loadSnow, applyShowSnow, parseShowSnow, hsn, getItem_setItem]
    rfl

/-- C8 witness: both loads over the empty storage. -/
theorem load_defaults_witness :
    (loadTheme ⟨"light", none, []⟩).currentTheme = "light" ∧
    (loadTheme ⟨"light", none, []⟩).dataTheme = some "light" ∧
    (loadSnow ⟨true, []⟩).showSnow = true ∧
    getItem (loadSnow ⟨true, []⟩).storage "showSnow" = some "true" :=
  load_defaults ⟨"light", none, []⟩ ⟨true, []⟩ rfl rfl

/-- C9: both setters are idempotent — calling the set path twice with the
same value gives the exact same component state (ref, attribute, storage) as
calling it once — and a read immediately after returns the value just set,
both from memory and from storage. -/
theorem setPreference_idempotent (st : ThemeState) (v : String)
    (t : SnowState) (b : Bool) :
    setThemePreference (setThemePreference st v) v = setThemePreference st v ∧
    (setThemePreference st v).currentTheme = v ∧
    (setThemePreference st v).dataTheme = some v ∧
    getItem (setThemePreference st v).storage "theme" = some v ∧
    setSnowPreference (setSnowPreference t b) b = setSnowPreference t b ∧
    (setSnowPreference t b).showSnow = b ∧
    getItem (setSnowPreference t b).storage "showSnow" = some (toString b) := by
  refine ⟨?_, rfl, rfl, ?_, ?_, rfl, ?_⟩ <;>
    simp [setThemePreference, setSnowPreference, applyTheme, applyShowSnow,
      setItem_idem, getItem_setItem]

/-- C10: for a non-empty string s stored under the animation key the loaded
in-memory value is true exactly when s is the text "true" (so "TRUE" or "1"
silently disable the animation rather than falling back to the default),
while an absent or empty stored value yields the default true. -/
theorem snow_parse_exact_true (t : SnowState) (s : String)
    (hs : getItem t.storage "showSnow" = some s) (hne : s ≠ "") :
    ((loadSnow t).showSnow = true ↔ s = "true") ∧
    (∀ t2 : SnowState, getItem t2.storage "showSnow" = none →
      (loadSnow t2).showSnow = true) ∧
    (∀ t3 : SnowState, getItem t3.storage "showSnow" = some "" →
      (loadSnow t3).showSnow = true) := by
  refine ⟨?_, ?_, ?_⟩
  · simp [loadSnow, applyShowSnow, parseShowSnow, hs, hne]
  · intro t2 h2
    simp [loadSnow, applyShowSnow, parseShowSnow, h2]
  · intro t3 h3
    simp [loadSnow, applyShowSnow, parseShowSnow, h3]

/-- C10 witness: the stored text "TRUE" disables the animation. -/
theorem snow_parse_exact_true_witness :
    (((loadSnow ⟨true, [("showSnow", "TRUE")]⟩).showSnow = true) ↔
      ("TRUE" : String) = "true") ∧
    (∀ t2 : SnowState, getItem t2.storage "showSnow" = none →
      (loadSnow t2).showSnow = true) ∧
    (∀ t3 : SnowState, getItem t3.storage "showSnow" = some "" →
      (loadSnow t3).showSnow = true) :=
  snow_parse_exact_true ⟨true, [("showSnow", "TRUE")]⟩ "TRUE" rfl (by decide)

/-- `toggleTheme` (SimpleNavigation.vue:9-13) against a storage whose
`setItem` may throw (quota exceeded, storage disabled): the ref and the
attribute are assigned on lines 10-11 BEFORE the `localStorage.setItem` call
of line 12, which stands bare — there is no try/catch in the function — so a
storage exception escapes to the caller with the in-memory state already
mutated. `some msg` in the second component is the escaped exception. -/
def toggleThemeF (st : ThemeState) (setItemThrows : Bool) :
    ThemeState × Option String :=
  let next := if st.currentTheme = "light" then "dark" else "light"
  let st1 := { st with currentTheme := next, dataTheme := some next }
  if setItemThrows then (st1, some "QuotaExceededError")
  else ({ st1 with storage := setItem st1.storage "theme" next }, none)

/-- `applyShowSnow` (App.vue:139-141) against a throwing `setItem`:
the single `localStorage.setItem` call is not wrapped, so the exception
escapes and nothing is written. -/
def applyShowSnowF (t : SnowState) (v : Bool) (setItemThrows : Bool) :
    SnowState × Option String :=
  if setItemThrows then (t, some "QuotaExceededError")
  else (applyShowSnow t v, none)

/-- The theme load of `onMounted` (SimpleNavigation.vue:63-67) against a
throwing `getItem`: the bare `localStorage.getItem` on line 65 throws before
any assignment, so the hook exits with the state untouched and the
exception escaping. -/
def loadThemeF (st : ThemeState) (getItemThrows : Bool) :
    ThemeState × Option String :=
  if getItemThrows then (st, some "SecurityError")
  else (loadTheme st, none)

/-- C3 (counterexample): a storage write that throws inside `toggleTheme`
propagates out of the function instead of being caught — contradicting the
claim that no storage exception ever reaches the caller. -/
theorem storage_exception_counterexample :
    (toggleThemeF ⟨"light", none, []⟩ true).2 = some "QuotaExceededError" ∧
    (toggleThemeF ⟨"light", none, []⟩ true).2 ≠ none := by
  refine ⟨rfl, by decide⟩

/-- C3 (amended): none of the storage accesses in `toggleTheme`,
`applyShowSnow`, or the mount-time theme load is wrapped in try/catch, so a
throwing storage operation escapes to the caller; in `toggleTheme` the
in-memory ref and document attribute are already flipped when it escapes
(storage left unwritten), while `applyShowSnow` and the load escape with
their state untouched; when storage does not throw, no exception is
produced. -/
theorem storage_exception_propagates (st : ThemeState) (t : SnowState) (v : Bool) :
    (toggleThemeF st true).2 = some "QuotaExceededError" ∧
    (toggleThemeF st true).1.currentTheme =
      (if st.currentTheme = "light" then "dark" else "light") ∧
    (toggleThemeF st true).1.dataTheme = some (toggleThemeF st true).1.currentTheme ∧
    (toggleThemeF st true).1.storage = st.storage ∧
    (applyShowSnowF t v true).2 = some "QuotaExceededError" ∧
    (applyShowSnowF t v true).1 = t ∧
    (loadThemeF st true).2 = some "SecurityError" ∧
    (loadThemeF st true).1 = st ∧
    (toggleThemeF st false).2 = none ∧
    (applyShowSnowF t v false).2 = none ∧
    (loadThemeF st false).2 = none := by
  refine ⟨rfl, rfl, rfl, rfl, rfl, rfl, rfl, rfl, rfl, rfl, rfl⟩

/-- Observable state of one Intersection-Triggered Reveal component: the
`isVisible`/`sectionVisible` ref and whether an IntersectionObserver is
currently subscribed to the section element. -/
structure RevealState where
  isVisible : Bool
  observing : Bool
deriving DecidableEq

/-- `onMounted` of AboutSection.vue:39-57: early return when the template
ref is unset; otherwise `new IntersectionObserver(...)` is called
unconditionally — when the environment lacks the constructor this throws a
ReferenceError that escapes the hook, no observer is subscribed, and the
reveal ref stays false. With support, the element is observed. -/
def aboutOnMounted (refPresent ioSupported : Bool) :
    RevealState × Option String :=
  if refPresent = false then (⟨false, false⟩, none)
  else if ioSupported = false then (⟨false, false⟩, some "ReferenceError")
  else (⟨false, true⟩, none)

/-- `onMounted` of ContactSection.vue:72-90: identical shape to
AboutSection. -/
def contactOnMounted (refPresent ioSupported : Bool) :
    RevealState × Option String :=
  aboutOnMounted refPresent ioSupported

/-- `onMounted` of ProjectsSection.vue:89-104: the observer set-up is
guarded by `if (sectionRef.value)` and likewise calls
`new IntersectionObserver(...)` with no capability check. (The
structured-data bookkeeping of the same hook touches no reveal state and is
omitted.) -/
def projectsOnMounted (refPresent ioSupported : Bool) :
    RevealState × Option String :=
  aboutOnMounted refPresent ioSupported

/-- The intersection callback of AboutSection.vue:43-48 (ContactSection is
identical): a delivered entry with `isIntersecting` sets the reveal ref; the
observer is NOT unobserved or disconnected. An event is delivered only
while the observer is subscribed. -/
def aboutOnIntersect (st : RevealState) (isIntersecting : Bool) : RevealState :=
  if st.observing then
    if isIntersecting then { st with isVisible := true } else st
  else st

/-- The intersection callback of ContactSection.vue:76-81. -/
def contactOnIntersect (st : RevealState) (isIntersecting : Bool) : RevealState :=
  aboutOnIntersect st isIntersecting

/-- The intersection callback of ProjectsSection.vue:93-99: on a qualifying
entry it sets the reveal ref AND calls `observer.unobserve(entry.target)`. -/
def projectsOnIntersect (st : RevealState) (isIntersecting : Bool) : RevealState :=
  if st.observing then
    if isIntersecting then ⟨true, false⟩ else st
  else st

/-- A sequence of intersection observations delivered to AboutSection. -/
def runAbout (st : RevealState) (evs : List Bool) : RevealState :=
  evs.foldl aboutOnIntersect st

def runContact (st : RevealState) (evs : List Bool) : RevealState :=
  evs.foldl contactOnIntersect st

def runProjects (st : RevealState) (evs : List Bool) : RevealState :=
  evs.foldl projectsOnIntersect st

/-- C4 (counterexample): with the template ref present but the
intersection-observer capability unsupported, AboutSection's mount hook
escapes with a ReferenceError and the reveal state is still pending — not
"revealed immediately with no escaping exception" as the claim states. -/
theorem observer_unsupported_counterexample :
    (aboutOnMounted true false).1.isVisible = false ∧
    (aboutOnMounted true false).2 = some "ReferenceError" := by
  refine ⟨rfl, rfl⟩

/-- C4 (amended): none of the reveal components feature-detects the
intersection-observer capability: when it is unsupported, the bare
constructor call makes the mount hook escape with a ReferenceError, the
reveal state remains pending (never revealed), and no observer is
subscribed; with support, mounting subscribes the observer with the state
pending and no exception. -/
theorem observer_unsupported_amended (r : Bool) :
    (aboutOnMounted r false).1.isVisible = false ∧
    (contactOnMounted r false).1.isVisible = false ∧
    (projectsOnMounted r false).1.isVisible = false ∧
    (aboutOnMounted true false).2 = some "ReferenceError" ∧
    (contactOnMounted true false).2 = some "ReferenceError" ∧
    (projectsOnMounted true false).2 = some "ReferenceError" ∧
    (aboutOnMounted r false).1.observing = false ∧
    aboutOnMounted true true = (⟨false, true⟩, none) := by
  cases r <;> exact ⟨rfl, rfl, rfl, rfl, rfl, rfl, rfl, rfl⟩

/-- C5 (counterexample): in AboutSection, after the first qualifying
observation from the freshly mounted state the reveal fires but the
observer is STILL subscribed — the callback never unobserves — so a later
qualifying observation is again delivered, contradicting the claimed
unsubscription for every revealable section. -/
theorem reveal_unsubscribe_counterexample :
    aboutOnMounted true true = (⟨false, true⟩, none) ∧
    aboutOnIntersect ⟨false, true⟩ true = ⟨true, true⟩ ∧
    (⟨true, true⟩ : RevealState).observing ≠ false := by
  refine ⟨rfl, rfl, by decide⟩

/-- C5 (amended): for every section the reveal transitions pending→revealed
at most once and never back — a revealed state is left completely unchanged
by any further observation sequence — but only ProjectsSection unsubscribes
its observer within the handling of the first qualifying observation;
AboutSection and ContactSection stay subscribed, and the later observations
still delivered to them cause no further state change. -/
theorem reveal_once_amended (ob v : Bool) (evs : List Bool) (st : RevealState) :
    runAbout ⟨true, ob⟩ evs = ⟨true, ob⟩ ∧
    runContact ⟨true, ob⟩ evs = ⟨true, ob⟩ ∧
    runProjects ⟨true, false⟩ evs = ⟨true, false⟩ ∧
    runProjects ⟨v, false⟩ evs = ⟨v, false⟩ ∧
    projectsOnIntersect ⟨v, true⟩ true = ⟨true, false⟩ ∧
    aboutOnIntersect ⟨false, true⟩ true = ⟨true, true⟩ ∧
    contactOnIntersect ⟨false, true⟩ true = ⟨true, true⟩ ∧
    (runAbout st evs).isVisible = (st.isVisible || evs.any (fun e => st.observing && e)) := by
  refine ⟨?_, ?_, ?_, ?_, rfl, rfl, rfl, ?_⟩
  · induction evs with
    | nil => rfl
    | cons e rest ih => cases e <;> cases ob <;> simpa [runAbout, aboutOnIntersect] using ih
  · induction evs with
    | nil => rfl
    | cons e rest ih =>
      cases e <;> cases ob <;>
        simpa [runContact, runAbout, contactOnIntersect, aboutOnIntersect] using ih
  · induction evs with
    | nil => rfl
    | cons e rest ih => cases e <;> simpa [runProjects, projectsOnIntersect] using ih
  · induction evs with
    | nil => rfl
    | cons e rest ih => cases e <;> simpa [runProjects, projectsOnIntersect] using ih
  · induction evs generalizing st with
    | nil => simp [runAbout]
    | cons e rest ih =>
      cases hob : st.observing <;> cases he : e <;> cases hv : st.isVisible <;>
        simp_all [runAbout, aboutOnIntersect]

/-- Observable state of the Scroll-Spy component for lifecycle claims: the
`activeSection` ref and whether the `handleScroll` listener is attached to
the window. -/
structure SpyState where
  activeSection : String
  scrollListener : Bool
deriving DecidableEq

/-- The scroll-spy part of `onMounted` (SimpleNavigation.vue:69-71):
`addEventListener('scroll', handleScroll, { passive: true })` followed by an
initial `updateActiveSection()`. -/
def spyOnMounted (dom : Dom) (scrollY : Int) (st : SpyState) : SpyState :=
  { activeSection := updateActiveSection dom navSections scrollY st.activeSection,
    scrollListener := true }

/-- `onUnmounted` (SimpleNavigation.vue:74-76):
`removeEventListener('scroll', handleScroll)`. -/
def spyOnUnmounted (st : SpyState) : SpyState :=
  { st with scrollListener := false }

/-- A browser scroll event: `handleScroll` (SimpleNavigation.vue:59-61) runs
only while the listener is attached. -/
def spyScrollEvent (dom : Dom) (scrollY : Int) (st : SpyState) : SpyState :=
  if st.scrollListener then
    { st with activeSection := updateActiveSection dom navSections scrollY st.activeSection }
  else st

/-- Teardown of AboutSection: the component registers NO `onUnmounted` hook,
so unmounting leaves the observer subscription untouched. -/
def aboutOnUnmounted (st : RevealState) : RevealState := st

/-- Teardown of ContactSection: no `onUnmounted` hook is registered. -/
def contactOnUnmounted (st : RevealState) : RevealState := st

/-- Teardown of ProjectsSection (ProjectsSection.vue:120-123): the
`onUnmounted` hook only removes the injected structured data; the observer
is neither unobserved nor disconnected there. -/
def projectsOnUnmounted (st : RevealState) : RevealState := st

/-- C6 (counterexample): unmounting AboutSection after a mount that
subscribed its observer leaves the observer subscribed (the component
registers no unmount disposer), and a simulated qualifying intersection
after teardown still changes the reveal state — contradicting the claim
that every mount-time attach is paired with a detach on teardown and that
post-teardown events change nothing. -/
theorem teardown_counterexample :
    (aboutOnUnmounted (aboutOnMounted true true).1).observing = true ∧
    aboutOnIntersect (aboutOnUnmounted (aboutOnMounted true true).1) true ≠
      aboutOnUnmounted (aboutOnMounted true true).1 := by
  refine ⟨rfl, by decide⟩

/-- C6 (amended): the Scroll-Spy half of the claim holds — `onUnmounted`
removes the scroll listener and a scroll event after teardown changes
nothing — but no Intersection-Triggered Reveal component disposes its
observer at teardown: AboutSection and ContactSection register no unmount
hook at all and the ProjectsSection unmount hook does not touch the
observer, so teardown is the identity on observer state and a qualifying
intersection delivered after teardown still flips the reveal ref. -/
theorem teardown_amended (dom : Dom) (y : Int) (st : SpyState) (rv : RevealState) :
    (spyOnUnmounted st).scrollListener = false ∧
    spyScrollEvent dom y (spyOnUnmounted st) = spyOnUnmounted st ∧
    (spyOnMounted dom y st).scrollListener = true ∧
    aboutOnUnmounted rv = rv ∧
    contactOnUnmounted rv = rv ∧
    projectsOnUnmounted rv = rv ∧
    (aboutOnIntersect (aboutOnUnmounted ⟨false, true⟩) true).isVisible = true := by
  refine ⟨rfl, ?_, rfl, rfl, rfl, rfl, rfl⟩
  simp [spyScrollEvent, spyOnUnmounted]
